import Mathlib

/-!
Verification of the CosmosDB emulator container module
(`modules/cosmosdb/testcontainers/cosmosdb/__init__.py`).

The module wraps an Azure CosmosDB emulator container: it resolves a startup
configuration (partition count, IP address override, port bindings), starts
the container, waits for a "Started" log marker, then polls an HTTPS
certificate endpoint until it answers 200, and finally hands out connection
parameters (fixed account key, TLS verification disabled).

The definitions below are a shallow embedding of that Python code.  Time is
modelled in whole seconds: the polling loops sleep one second per iteration,
so iteration `k` of a loop happens at elapsed time `k` seconds after the
loop's own start.
-/

namespace CosmosDb

/-! ### Python string primitives used by `check_logs` -/

/-- `str.splitlines` of Python restricted to the `\n`, `\r` and `\r\n` line
boundaries: splits at each boundary, a trailing boundary does not produce an
empty final line, and the empty string yields no lines. -/
def pySplitlinesGo : List Char → List Char → List String
  | [], [] => []
  | [], acc => [String.mk acc.reverse]
  | '\r' :: '\n' :: rest, acc => String.mk acc.reverse :: pySplitlinesGo rest []
  | '\n' :: rest, acc => String.mk acc.reverse :: pySplitlinesGo rest []
  | '\r' :: rest, acc => String.mk acc.reverse :: pySplitlinesGo rest []
  | c :: rest, acc => pySplitlinesGo rest (c :: acc)

/-- `stdout.splitlines()` on a Python string. -/
def pySplitlines (s : String) : List String :=
  pySplitlinesGo s.data []

/-- `s.endswith(suffix)` of Python: `suffix` is a suffix of `s`. -/
def pyEndswith (s sfx : String) : Bool :=
  decide (sfx.length ≤ s.length) &&
    decide (s.data.drop (s.length - sfx.length) = sfx.data)

/-- `check_logs` (the inner predicate of `_connect`):
`stdout.splitlines()[-1].endswith("Started") if stdout else False`.
Python's `[-1]` indexing raises `IndexError` on an empty list; that partiality
is made explicit with `Option`, `none` standing for the raised exception. -/
def check_logs (stdout : String) : Option Bool :=
  if stdout ≠ "" then
    (pySplitlines stdout).getLast?.map (fun line => pyEndswith line "Started")
  else
    some false

/-- The Boolean value of `check_logs`, defaulting the (unreachable) exception
case to `false`; this is the predicate handed to `wait_for_logs`. -/
def check_logs_bool (stdout : String) : Bool :=
  (check_logs stdout).getD false

/-! ### The two polling loops of `_connect`

Both the log wait and the endpoint wait are 1-second polling loops bounded by
`self.timeout`.  A loop checks `elapsed > timeout` before each attempt, so
with one attempt per second it performs attempts at elapsed times
`0, 1, ..., timeout` and gives up at elapsed time `timeout + 1`.  `pollAux`
performs exactly the attempts of such a loop: starting at time `k` with
`budget` attempts remaining, it returns the time of the first successful
attempt, or `none` when the budget is exhausted. -/

def pollAux (ready : Nat → Bool) : Nat → Nat → Option Nat
  | _, 0 => none
  | k, budget + 1 => if ready k then some k else pollAux ready (k + 1) budget

/-- A full bounded polling loop: attempts at times `0, ..., timeout`, result
is the time of the first success, `none` when every attempt failed (the
Python loop then raises `TimeoutError` at elapsed time `timeout + 1`). -/
def pollLoop (timeout : Nat) (ready : Nat → Bool) : Option Nat :=
  pollAux ready 0 (timeout + 1)

/-- Result of one HTTPS probe of `<connection-url>/_explorer/emulator.pem`:
either an HTTP response with a status code, or a raised
`requests.exceptions.RequestException` (refused, reset, TLS failure, ...). -/
inductive ProbeResult where
  | status (code : Nat)
  | requestException
  deriving DecidableEq

/-- `wait_for_successful_request` (the inner function of `_connect`): `True`
iff the GET returned status 200; any `RequestException` is caught and turned
into `False`. -/
def wait_for_successful_request : ProbeResult → Bool
  | .status code => code == 200
  | .requestException => false

/-- The external world observed by one readiness sequence: the accumulated
container stdout at each second of the log phase, and the result of the
`k`-th endpoint probe. -/
structure ConnectEnv where
  stdout : Nat → String
  probe : Nat → ProbeResult

/-- Outcome of `_connect`.  A `TimeoutError` is tagged with the phase that
raised it and with the total elapsed time, in seconds, since the start of the
whole readiness sequence. -/
inductive ConnectOutcome where
  | ready (logTime probeTime : Nat)
  | timedOutInLogs (elapsed : Nat)
  | timedOutInProbe (elapsed : Nat)
  deriving DecidableEq

/-- Modelled from the spec: `wait_for_logs` lives in
`testcontainers.core.waiting_utils`, which is not among the given source
files.  Per the spec, the marker check "must be re-evaluated as new log
output arrives" and "is itself bounded by the overall timeout", raising a
timeout error when the bound is exceeded; modelled as a 1-second polling loop
over the accumulated stdout, returning the first time the predicate holds. -/
def wait_for_logs (timeout : Nat) (stdout : Nat → String) : Option Nat :=
  pollLoop timeout (fun t => check_logs_bool (stdout t))

/-- `_connect`: first `wait_for_logs` with `check_logs`, bounded by
`self.timeout`; then — with `start_time` reset to the current time — the
endpoint-probe loop, again bounded by `self.timeout`, probing once per
second.  On a probe-phase timeout the total elapsed time is the log-phase
duration plus `timeout + 1`. -/
def connect (timeout : Nat) (env : ConnectEnv) : ConnectOutcome :=
  match wait_for_logs timeout env.stdout with
  | none => .timedOutInLogs (timeout + 1)
  | some tLog =>
    match pollLoop timeout (fun k => wait_for_successful_request (env.probe k)) with
    | none => .timedOutInProbe (tLog + (timeout + 1))
    | some k => .ready tLog (tLog + k)

/-- `start`: `super().start()` (the container runtime, an external
collaborator modelled as a flag for whether it launched the container), then
`_connect`; the readiness sequence runs only when the runtime start
succeeded. -/
def cosmos_start (runtimeOk : Bool) (timeout : Nat) (env : ConnectEnv) :
    Option ConnectOutcome :=
  if runtimeOk then some (connect timeout env) else none

/-! ### Configuration resolution (`__init__` and `_configure`) -/

/-- Class attribute `timeout = 120.0` (seconds). -/
def default_timeout : Nat := 120

/-- Class attribute `port = 8081`. -/
def cosmos_port : Nat := 8081

/-- Class attribute `localhost = "localhost"`. -/
def cosmos_localhost : String := "localhost"

/-- `self.partition_count = partition_count if partition_count else
os.environ.get("AZURE_COSMOS_EMULATOR_PARTITION_COUNT", "")`.
`arg` is the constructor argument (`none` for Python `None`), `env` the value
of the environment variable `AZURE_COSMOS_EMULATOR_PARTITION_COUNT` on the
host (`none` when unset).  Python truthiness: both `None` and `""` are falsy,
so only a non-empty argument wins. -/
def resolve_partition_count (arg env : Option String) : String :=
  match arg with
  | some a => if a = "" then env.getD "" else a
  | none => env.getD ""

/-- `self.ip_address = ip_address_override if ip_address_override else
self.ip_address`.  `default` is the class attribute
`socket.gethostbyname("localhost")`; the constructor argument wins when
truthy (non-`None`, non-empty), otherwise the class default is kept.  No
environment variable is consulted here. -/
def resolve_ip_address (default : String) (override : Option String) : String :=
  match override with
  | some o => if o = "" then default else o
  | none => default

/-- Modelled from the spec: the spec's Configuration Resolver rule for the IP
address, "an explicitly passed parameter always wins; otherwise fall back to
a named environment variable (`AZURE_COSMOS_EMULATOR_IP_ADDRESS_OVERRIDE`);
otherwise use a hard-coded default".  Stated here only to compare with
`resolve_ip_address`, the resolver actually in the source. -/
def resolve_ip_address_spec (default : String) (override envVar : Option String) :
    String :=
  match override with
  | some o => if o = "" then (envVar.getD default) else o
  | none => envVar.getD default

/-- `_configure`: the environment written into the container: the partition
count only when truthy, and `AZURE_COSMOS_EMULATOR_IP_ADDRESS_OVERRIDE`
always, set to the already-resolved `self.ip_address`. -/
def configure (partition_count ip_address : String) : List (String × String) :=
  (if partition_count = "" then []
   else [("AZURE_COSMOS_EMULATOR_PARTITION_COUNT", partition_count)]) ++
  [("AZURE_COSMOS_EMULATOR_IP_ADDRESS_OVERRIDE", ip_address)]

/-- What `__init__` does besides field resolution: warn when a `port` kwarg
is passed (without honouring it), and request the fixed port bindings
`with_bind_ports(self.port, self.port)` plus `with_bind_ports(p, p)` for
`p in range(10250, 10256)`. -/
structure InitResult where
  port_warning : Bool
  bindings : List (Nat × Nat)
  primary_port : Nat
  deriving DecidableEq

/-- `__init__` of `CosmosDbContainer`: `port_kwarg` records whether a `port`
keyword argument was passed. -/
def cosmos_init (port_kwarg : Bool) : InitResult :=
  { port_warning := port_kwarg
    bindings :=
      (cosmos_port, cosmos_port) ::
        (List.range' 10250 6).map (fun p => (p, p))
    primary_port := cosmos_port }

/-! ### Connection parameters (`get_account_key`, `get_connection_url`,
`get_connection_client`) -/

/-- `get_account_key`: the static, hard-coded emulator account key. -/
def get_account_key : String :=
  "C2y6yDjf5/R+ob0N8A7Cgv30VRDJIWEHLM+4QDU5DE2nQ9nDuVTqobD4b8mGGyPMbIZnqyMsEcaGQy67XIw/Jw=="

/-- `get_connection_url`: `f"https://{self.localhost}:{self.port}/"`. -/
def get_connection_url (localhost : String) (port : Nat) : String :=
  "https://" ++ localhost ++ ":" ++ toString port ++ "/"

/-- The arguments `get_connection_client` passes to the `CosmosClient`
constructor. -/
structure CosmosClientArgs where
  url : String
  credential : String
  connection_verify : Bool
  retry_total : Nat
  deriving DecidableEq

/-- `get_connection_client`: builds the client from the connection URL, the
static key, TLS verification disabled, and 3 retries. -/
def get_connection_client (localhost : String) (port : Nat) : CosmosClientArgs :=
  { url := get_connection_url localhost port
    credential := get_account_key
    connection_verify := false
    retry_total := 3 }

/-! ### Scoped acquisition (`with CosmosDbContainer() as ...`) -/

/-- Outcome of a readiness sequence run inside the owning scope, together
with how many times container teardown (`stop`) was invoked on scope exit. -/
structure ScopeResult where
  outcome : ConnectOutcome
  stop_count : Nat
  deriving DecidableEq

/-- Modelled from the spec: the scoped-acquisition semantics (the
`with`-statement enter/exit of the base container class) live in
`testcontainers.core`, not among the given source files.  Per the spec,
"`stop(handle)` is idempotent and always invoked — via scoped-acquisition
semantics — when the owning scope exits, whether exit is normal, due to an
error, or due to a cancellation/timeout raised by the Readiness Verifier":
the scope runs the readiness sequence and invokes `stop` exactly once on
every exit path. -/
def with_container_scope (timeout : Nat) (env : ConnectEnv) : ScopeResult :=
  { outcome := connect timeout env
    stop_count := 1 }

/-! ### Lemmas about the polling loops -/

theorem pollAux_some {ready : Nat → Bool} :
    ∀ {b k j : Nat}, pollAux ready k b = some j →
      k ≤ j ∧ j < k + b ∧ ready j = true := by
  intro b
  induction b with
  | zero => intro k j h; simp [pollAux] at h
  | succ b ih =>
    intro k j h
    rw [pollAux] at h
    by_cases hr : ready k
    · simp [hr] at h
      subst h
      exact ⟨Nat.le_refl _, by omega, hr⟩
    · simp [hr] at h
      obtain ⟨h1, h2, h3⟩ := ih h
      exact ⟨by omega, by omega, h3⟩

theorem pollAux_none_iff {ready : Nat → Bool} :
    ∀ {b k : Nat}, pollAux ready k b = none ↔
      ∀ j, k ≤ j → j < k + b → ready j = false := by
  intro b
  induction b with
  | zero => intro k; simp [pollAux]; intro j h1 h2; omega
  | succ b ih =>
    intro k
    rw [pollAux]
    by_cases hr : ready k
    · simp [hr]
      exact ⟨k, Nat.le_refl _, by omega, hr⟩
    · simp [hr, ih]
      constructor
      · intro h j h1 h2
        rcases Nat.eq_or_lt_of_le h1 with rfl | hlt
        · exact Bool.of_not_eq_true hr
        · exact h j hlt (by omega)
      · intro h j h1 h2
        exact h j (by omega) (by omega)

theorem pollLoop_some {timeout : Nat} {ready : Nat → Bool} {j : Nat}
    (h : pollLoop timeout ready = some j) : j ≤ timeout ∧ ready j = true := by
  obtain ⟨_, h2, h3⟩ := pollAux_some h
  exact ⟨by omega, h3⟩

theorem pollLoop_none_iff {timeout : Nat} {ready : Nat → Bool} :
    pollLoop timeout ready = none ↔ ∀ j, j ≤ timeout → ready j = false := by
  rw [pollLoop, pollAux_none_iff]
  constructor
  · intro h j hj; exact h j (Nat.zero_le _) (by omega)
  · intro h j _ hj; exact h j (by omega)

theorem pollAux_first {ready : Nat → Bool} :
    ∀ {b i k : Nat}, i ≤ k → k < i + b → ready k = true →
      (∀ j, i ≤ j → j < k → ready j = false) →
      pollAux ready i b = some k := by
  intro b
  induction b with
  | zero => intro i k h1 h2 _ _; exact absurd h2 (by omega)
  | succ b ih =>
    intro i k h1 h2 h3 h4
    rw [pollAux]
    rcases Nat.eq_or_lt_of_le h1 with rfl | hlt
    · simp [h3]
    · have hfi : ready i = false := h4 i (Nat.le_refl _) hlt
      simp [hfi]
      exact ih (by omega) (by omega) h3 (fun j hj1 hj2 => h4 j (by omega) hj2)

theorem wait_for_successful_request_true_iff (r : ProbeResult) :
    wait_for_successful_request r = true ↔ r = .status 200 := by
  cases r with
  | status code => simp [wait_for_successful_request]
  | requestException => simp [wait_for_successful_request]

theorem pySplitlinesGo_ne_nil :
    ∀ (l acc : List Char), l ≠ [] ∨ acc ≠ [] → pySplitlinesGo l acc ≠ [] := by
  intro l acc
  induction l, acc using pySplitlinesGo.induct with
  | case1 => simp
  | case2 acc h => intro _; simp [pySplitlinesGo]
  | case3 rest acc ih => intro _; simp [pySplitlinesGo]
  | case4 rest acc ih => intro _; simp [pySplitlinesGo]
  | case5 rest acc ih => intro _; simp [pySplitlinesGo]
  | case6 c rest acc h1 h2 h3 ih =>
    intro _
    rw [pySplitlinesGo]
    · exact ih (Or.inr (by simp))
    · exact h1
    · exact h2
    · exact h3

/-! ### Concrete environments used as witnesses and counterexamples -/

/-- Marker present from the first second on; every probe answers 200. -/
def readyEnv : ConnectEnv :=
  { stdout := fun _ => "Started", probe := fun _ => .status 200 }

/-- Marker appears at 4 seconds; every probe raises a connection error. -/
def slowLogEnv : ConnectEnv :=
  { stdout := fun t => if 4 ≤ t then "Started" else ""
    probe := fun _ => .requestException }

/-- The marker never appears. -/
def silentEnv : ConnectEnv :=
  { stdout := fun _ => "", probe := fun _ => .status 200 }

/-- The first two probes raise connection errors, every later one answers
200. -/
def flakyEnv : ConnectEnv :=
  { stdout := fun _ => "Started"
    probe := fun k => if k < 2 then .requestException else .status 200 }

/-! ### The claims -/

/-- C1: the readiness sequence reaches the successful-start outcome only
after both signals, in order: `start()` returns successfully only if the
log-marker check succeeded first (at some time within the timeout) and an
HTTPS probe of the certificate endpoint then (at or after the marker time)
returned status 200; no execution succeeds with only one of the two
signals. -/
theorem C1_ready_requires_both_signals
    (runtimeOk : Bool) (timeout : Nat) (env : ConnectEnv) (tLog tProbe : Nat)
    (h : cosmos_start runtimeOk timeout env = some (.ready tLog tProbe)) :
    runtimeOk = true ∧
    tLog ≤ timeout ∧ check_logs_bool (env.stdout tLog) = true ∧
    tLog ≤ tProbe ∧ tProbe - tLog ≤ timeout ∧
    env.probe (tProbe - tLog) = .status 200 := by
  cases runtimeOk with
  | false => simp [cosmos_start] at h
  | true =>
    simp [cosmos_start] at h
    unfold connect at h
    cases hlog : wait_for_logs timeout env.stdout with
    | none => rw [hlog] at h; exact absurd h (by simp)
    | some t =>
      rw [hlog] at h
      cases hp : pollLoop timeout
          (fun k => wait_for_successful_request (env.probe k)) with
      | none => rw [hp] at h; exact absurd h (by simp)
      | some k =>
        rw [hp] at h
        simp only [ConnectOutcome.ready.injEq] at h
        obtain ⟨rfl, rfl⟩ := h
        rw [wait_for_logs] at hlog
        have hl := pollLoop_some hlog
        have hpr := pollLoop_some hp
        simp only at hl hpr
        refine ⟨rfl, hl.1, hl.2, by omega, by omega, ?_⟩
        have : t + k - t = k := by omega
        rw [this]
        exact (wait_for_successful_request_true_iff _).mp hpr.2

/-- C1 witness: a run in which the marker is present immediately and the
first probe answers 200 succeeds, and the theorem applies to it. -/
theorem C1_witness :
    true = true ∧
    0 ≤ 120 ∧ check_logs_bool (readyEnv.stdout 0) = true ∧
    0 ≤ 0 ∧ 0 - 0 ≤ 120 ∧
    readyEnv.probe (0 - 0) = .status 200 :=
  C1_ready_requires_both_signals true 120 readyEnv 0 0 (by decide)

/-- C2 counterexample: the claim says `check_logs` on the single-line stdout
"Started up" returns true; in fact `"Started up".endswith("Started")` is
false (the line ends in "up"), so the predicate returns false. -/
theorem C2_counterexample : ¬ check_logs "Started up" = some true := by decide

/-- C2 (amended): on the stdout whose lines are ["init", "loading",
"Started"], `check_logs` returns true only once all three lines are present
and the last line ends with "Started" (case-sensitive suffix match, not
equality — a last line "Successfully Started" also matches); a stdout whose
single line is "Started up" does NOT match, since that line does not end
with "Started". -/
theorem C2_check_logs_marker :
    check_logs "init" = some false ∧
    check_logs "init\nloading" = some false ∧
    check_logs "init\nloading\nStarted" = some true ∧
    check_logs "Successfully Started" = some true ∧
    check_logs "started" = some false ∧
    check_logs "Started up" = some false := by decide

/-- C3 counterexample: with a configured timeout of 5 seconds, a run whose
log marker appears after 4 seconds and whose probes never succeed raises its
timeout only 10 seconds after the start of the whole readiness sequence —
outside the claimed bound of the single timeout plus a small epsilon (one
probe interval plus one in-flight probe, i.e. 7 seconds in the spec's own
example), because the probe phase starts a fresh clock. -/
theorem C3_counterexample :
    connect 5 slowLogEnv = .timedOutInProbe 10 ∧ ¬ (10 ≤ 5 + 2) := by decide

/-- C3 (amended): the configured timeout bounds each phase separately, not
the whole sequence cumulatively: the endpoint-probe loop resets its clock
when it starts, so a probe-phase timeout fires at (log-phase elapsed) +
(timeout + 1) seconds after the start of the readiness sequence — anywhere
up to 2·timeout + 1 seconds in total, rather than within one probe interval
of the single configured timeout. -/
theorem C3_per_phase_timeout (timeout : Nat) (env : ConnectEnv) (e : Nat)
    (h : connect timeout env = .timedOutInProbe e) :
    ∃ tLog, tLog ≤ timeout ∧ e = tLog + (timeout + 1) ∧
      timeout + 1 ≤ e ∧ e ≤ 2 * timeout + 1 := by
  unfold connect at h
  cases hlog : wait_for_logs timeout env.stdout with
  | none => rw [hlog] at h; exact absurd h (by simp)
  | some t =>
    rw [hlog] at h
    cases hp : pollLoop timeout
        (fun k => wait_for_successful_request (env.probe k)) with
    | some k => rw [hp] at h; exact absurd h (by simp)
    | none =>
      rw [hp] at h
      simp only [ConnectOutcome.timedOutInProbe.injEq] at h
      rw [wait_for_logs] at hlog
      have hl := pollLoop_some hlog
      exact ⟨t, hl.1, h.symm, by omega, by omega⟩

/-- C3 witness: the amended statement applied to the 5-second-timeout run of
the counterexample. -/
theorem C3_witness :
    ∃ tLog, tLog ≤ 5 ∧ 10 = tLog + (5 + 1) ∧ 5 + 1 ≤ 10 ∧ 10 ≤ 2 * 5 + 1 :=
  C3_per_phase_timeout 5 slowLogEnv 10 (by decide)

/-- C4: precedence for the partition count — a non-empty explicit argument
wins over the environment variable `AZURE_COSMOS_EMULATOR_PARTITION_COUNT`,
the environment variable wins over the default, and the default is the empty
string. -/
theorem C4_partition_count_precedence (a e : String) :
    (a ≠ "" → resolve_partition_count (some a) (some e) = a) ∧
    resolve_partition_count none (some e) = e ∧
    resolve_partition_count none none = "" := by
  refine ⟨fun ha => ?_, rfl, rfl⟩
  simp [resolve_partition_count, ha]

/-- C4 witness: both an explicit partition count "3" and the environment
variable "5" set resolves to the explicit "3". -/
theorem C4_witness : resolve_partition_count (some "3") (some "5") = "3" :=
  (C4_partition_count_precedence "3" "5").1 (by decide)

/-- C5 counterexample: the claim says that with `ip_address_override` not
passed and the environment variable set to "10.0.0.5", the resolved IP is
"10.0.0.5" (the resolver of the spec does that); the resolver in the source
never reads the environment variable and yields the localhost-derived
default "127.0.0.1" instead. -/
theorem C5_counterexample :
    resolve_ip_address_spec "127.0.0.1" none (some "10.0.0.5") = "10.0.0.5" ∧
    resolve_ip_address "127.0.0.1" none = "127.0.0.1" ∧
    resolve_ip_address "127.0.0.1" none ≠
      resolve_ip_address_spec "127.0.0.1" none (some "10.0.0.5") := by decide

/-- C5 (amended): the environment variable
`AZURE_COSMOS_EMULATOR_IP_ADDRESS_OVERRIDE` is never read when resolving the
IP address: when the `ip_address_override` argument is not passed (or is
empty), the resolved IP is always the localhost-derived class default; a
non-empty argument always wins.  The variable name only appears as a key
written into the container environment by `_configure`, carrying the
already-resolved value. -/
theorem C5_ip_address_resolution (d o : String) :
    resolve_ip_address d none = d ∧
    resolve_ip_address d (some "") = d ∧
    (o ≠ "" → resolve_ip_address d (some o) = o) ∧
    configure "" (resolve_ip_address d none) =
      [("AZURE_COSMOS_EMULATOR_IP_ADDRESS_OVERRIDE", d)] := by
  refine ⟨rfl, by simp [resolve_ip_address], fun ho => ?_, rfl⟩
  simp [resolve_ip_address, ho]

/-- C5 witness: with the default "127.0.0.1" and the argument "10.0.0.5"
passed, the argument wins. -/
theorem C5_witness :
    resolve_ip_address "127.0.0.1" (some "10.0.0.5") = "10.0.0.5" :=
  (C5_ip_address_resolution "127.0.0.1" "10.0.0.5").2.2.1 (by decide)

/-- C6: if the log marker never appears within the timeout, the readiness
sequence ends in the log-phase timeout (raised one second past the bound)
and teardown is invoked exactly once on scope exit, as on every exit path. -/
theorem C6_log_timeout_teardown (timeout : Nat) (env : ConnectEnv)
    (h : ∀ t, t ≤ timeout → check_logs_bool (env.stdout t) = false) :
    (with_container_scope timeout env).outcome = .timedOutInLogs (timeout + 1) ∧
    (with_container_scope timeout env).stop_count = 1 := by
  have hlog : wait_for_logs timeout env.stdout = none := by
    rw [wait_for_logs]; exact pollLoop_none_iff.mpr h
  constructor
  · show connect timeout env = _
    unfold connect
    rw [hlog]
  · rfl

/-- C6 witness: a 3-second-timeout run whose stdout stays empty times out in
the log phase at 4 seconds with teardown invoked once. -/
theorem C6_witness :
    (with_container_scope 3 silentEnv).outcome = .timedOutInLogs (3 + 1) ∧
    (with_container_scope 3 silentEnv).stop_count = 1 :=
  C6_log_timeout_teardown 3 silentEnv (fun _ _ => rfl)

/-- C7: every request exception of an individual probe is swallowed locally
and merely causes a retry after the fixed interval: if the probes before
attempt `k` all raise request exceptions and attempt `k` (within the
timeout) answers 200, the phase still ends in the successful outcome — no
exception surfaces. -/
theorem C7_probe_exceptions_swallowed (timeout : Nat) (env : ConnectEnv)
    (tLog k : Nat)
    (hlog : wait_for_logs timeout env.stdout = some tLog)
    (hk : k ≤ timeout)
    (hok : env.probe k = .status 200)
    (hexn : ∀ j, j < k → env.probe j = .requestException) :
    connect timeout env = .ready tLog (tLog + k) := by
  unfold connect
  rw [hlog]
  have hp : pollLoop timeout
      (fun j => wait_for_successful_request (env.probe j)) = some k := by
    unfold pollLoop
    apply pollAux_first (Nat.zero_le _) (by omega)
    · show wait_for_successful_request (env.probe k) = true
      rw [hok]
      rfl
    · intro j _ hj2
      show wait_for_successful_request (env.probe j) = false
      rw [hexn j hj2]
      rfl
  rw [hp]

/-- C7 witness: two probes raising connection errors followed by a 200
response still end in the successful outcome at probe time 2. -/
theorem C7_witness : connect 120 flakyEnv = .ready 0 (0 + 2) :=
  C7_probe_exceptions_swallowed 120 flakyEnv 0 2 (by decide) (by decide)
    (by decide) (by intro j hj; interval_cases j <;> decide)

/-- C8: for every configured host and port, the connection client is built
with the TLS-verification flag false and the credential equal to the fixed
constant account key, which `get_account_key` returns identically on every
call. -/
theorem C8_connection_constants (localhost : String) (port : Nat) :
    (get_connection_client localhost port).connection_verify = false ∧
    (get_connection_client localhost port).credential = get_account_key ∧
    get_account_key =
      "C2y6yDjf5/R+ob0N8A7Cgv30VRDJIWEHLM+4QDU5DE2nQ9nDuVTqobD4b8mGGyPMbIZnqyMsEcaGQy67XIw/Jw==" :=
  ⟨rfl, rfl, rfl⟩

/-- C9: construction requests exactly the primary port 8081 plus every port
from 10250 to 10255 inclusive, each bound host-to-container to the identical
number; a `port` keyword argument only raises the warning flag while the
primary port stays 8081. -/
theorem C9_port_bindings (port_kwarg : Bool) :
    (cosmos_init port_kwarg).bindings =
      [(8081, 8081), (10250, 10250), (10251, 10251), (10252, 10252),
       (10253, 10253), (10254, 10254), (10255, 10255)] ∧
    (∀ pr ∈ (cosmos_init port_kwarg).bindings, pr.1 = pr.2) ∧
    (cosmos_init port_kwarg).primary_port = 8081 ∧
    (cosmos_init port_kwarg).port_warning = port_kwarg := by
  cases port_kwarg <;> exact ⟨by decide, by decide, rfl, rfl⟩

/-- C9 witness: the statement at a construction that did pass a `port`
keyword argument. -/
theorem C9_witness :
    (cosmos_init true).bindings =
      [(8081, 8081), (10250, 10250), (10251, 10251), (10252, 10252),
       (10253, 10253), (10254, 10254), (10255, 10255)] ∧
    (∀ pr ∈ (cosmos_init true).bindings, pr.1 = pr.2) ∧
    (cosmos_init true).primary_port = 8081 ∧
    (cosmos_init true).port_warning = true :=
  C9_port_bindings true

/-- C10: `check_logs` is total: on every stdout it returns a value — the
last-line indexing is guarded by the emptiness test, and a non-empty string
always has at least one line — and on the empty stdout the value is `false`
("marker not yet seen"), not a failure. -/
theorem C10_check_logs_total (stdout : String) :
    (check_logs stdout).isSome = true ∧ check_logs "" = some false := by
  refine ⟨?_, rfl⟩
  by_cases h : stdout = ""
  · subst h; rfl
  · have hdata : stdout.data ≠ [] := by
      intro hd
      exact h (String.ext (hd.trans rfl))
    have hne : pySplitlines stdout ≠ [] :=
      pySplitlinesGo_ne_nil _ _ (Or.inl hdata)
    have hsome : (pySplitlines stdout).getLast?.isSome = true := by
      rw [List.getLast?_isSome]; exact hne
    obtain ⟨line, hline⟩ := Option.isSome_iff_exists.mp hsome
    simp [check_logs, h, hline]

end CosmosDb
